import Mathlib

/-!
# Verification of the w2mqtt sensor reading normalization engine

Shallow embedding of `w2mqtt.py`: the BME280 fixed-point compensation
pipeline, the per-sensor state machine (`Sensor.update`,
`Sensor.publishMQTTJSON`), the deduplicating registry
(`SensorList.process`) and the watchdog-relevant slice of the `main`
ingest loop.

Modelling conventions:
* Python integers are `ℤ`.  Python `x >> n` (arithmetic shift, floor)
  is `x / 2 ^ n` (Lean `Int./` is Euclidean division, which is floor
  division for a positive divisor, exactly Python's `>>` and `//`);
  `x << n` is `x * 2 ^ n`.
* Python float *values* carried through sensor fields are modelled as
  exact rationals `ℚ`; the only place where IEEE-754 semantics is
  load-bearing for a claim is the single `int(a / b)` true division in
  `BME280.reading`, which is modelled exactly (`pyIntTrueDiv` below):
  CPython's `int / int` produces the correctly rounded
  (round-to-nearest, ties-to-even, 53-bit significand) double of the
  exact quotient, and `int(...)` truncates it toward zero.
* Python `dict`s keyed by sensor id are association lists with
  leftmost-binding-wins lookup; exceptions (`KeyError`,
  `ZeroDivisionError`) are `Except`/`Option` failure values.
* MQTT/string-formatting I/O is abstracted: `publishMQTTJSON` returns
  the numeric values it would interpolate into the payload together
  with the post-publish sensor state.
-/

namespace W2Mqtt

/-! ## Association-list helpers (Python `dict` with integer keys) -/

def lookupA {α : Type} : List (ℤ × α) → ℤ → Option α
  | [], _ => none
  | (k, v) :: rest, i => if i = k then some v else lookupA rest i

/-! ## Exact model of CPython's `int(x / y)` on integers

CPython's true division of two `int`s returns the IEEE-754 double
nearest to the exact quotient (ties to even); `int()` then truncates
toward zero.  `pyIntTrueDiv` reproduces this exactly over `ℤ`
(overflow to infinity cannot occur at the magnitudes produced by the
compensation pipeline and is not modelled); division by zero is the
`none` failure value (`ZeroDivisionError`). -/

/-- Fuelled ⌊log₂⌋ on `ℕ` (structural recursion so the kernel can
evaluate it; `ilog2 n` is `⌊log₂ n⌋` for `n ≥ 1`). -/
def ilog2F : ℕ → ℕ → ℕ
  | 0, _ => 0
  | fuel + 1, n => if n ≤ 1 then 0 else ilog2F fuel (n / 2) + 1

def ilog2 (n : ℕ) : ℕ := ilog2F n n

/-- Round the rational `a / b` (with `b > 0`) to the nearest integer,
ties to even. -/
def rneDiv (a b : ℤ) : ℤ :=
  let q := a / b
  let r := a % b
  if 2 * r < b then q
  else if b < 2 * r then q + 1
  else if q % 2 = 0 then q else q + 1

/-- `⌊log₂ (x / y)⌋` for `x, y > 0`. -/
def flog2q (x y : ℤ) : ℤ :=
  let d : ℤ := (ilog2 x.natAbs : ℤ) - (ilog2 y.natAbs : ℤ)
  -- x / y ≥ 2 ^ d ?
  let ge : Bool := if 0 ≤ d then decide (y * 2 ^ d.toNat ≤ x) else decide (y ≤ x * 2 ^ (-d).toNat)
  if ge then d else d - 1

/-- `⌊rnd(x / y)⌋` for `x, y > 0`, where `rnd` is rounding to a 53-bit
binary floating-point significand, round-to-nearest-ties-to-even. -/
def pyTrueDivFloorPos (x y : ℤ) : ℤ :=
  let e : ℤ := flog2q x y - 52
  if 0 ≤ e then rneDiv x (y * 2 ^ e.toNat) * 2 ^ e.toNat
  else rneDiv (x * 2 ^ (-e).toNat) y / 2 ^ (-e).toNat

/-- CPython `int(x / y)` for integers `x`, `y`: the correctly rounded
double of the exact quotient, truncated toward zero; `none` models
`ZeroDivisionError`. -/
def pyIntTrueDiv (x y : ℤ) : Option ℤ :=
  if y = 0 then none
  else if x = 0 then some 0
  else some (x.sign * y.sign * pyTrueDivFloorPos x.natAbs y.natAbs)

/-! ## BME280 compensation pipeline (`BME280.reading`, lines 56–83)

The calibration constants are the 3 + 9 signed/unsigned 16-bit words
`tcal[0..2]`, `pcal[0..8]` read at `setup`; they are opaque integer
inputs here.  The raw 20-bit ADC words are `rawp`, `rawt`. -/

/-- Line 59: `rawp = (rawd[0] << 12) | (rawd[1] << 4) | (rawd[2] >> 4)`
on the 6-byte block read from register 0xF7. -/
def bmeRawP (b0 b1 b2 : ℕ) : ℤ :=
  ((b0 <<< 12) ||| (b1 <<< 4) ||| (b2 >>> 4) : ℕ)

/-- Line 60: `rawt = (rawd[3] << 12) | (rawd[4] << 4) | (rawd[5] >> 4)`. -/
def bmeRawT (b3 b4 b5 : ℕ) : ℤ :=
  ((b3 <<< 12) ||| (b4 <<< 4) ||| (b5 >>> 4) : ℕ)

structure BMECal where
  t0 : ℤ
  t1 : ℤ
  t2 : ℤ
  p0 : ℤ
  p1 : ℤ
  p2 : ℤ
  p3 : ℤ
  p4 : ℤ
  p5 : ℤ
  p6 : ℤ
  p7 : ℤ
  p8 : ℤ
  deriving DecidableEq

namespace BMECal

/-- `rt1 + rt2`: the shared temperature term (`rt1`, `rt2` of
lines 63–64; the datasheet's `t_fine`). -/
def tfine (c : BMECal) (rawt : ℤ) : ℤ :=
  let rt1 := (((rawt / 2 ^ 3) - (c.t0 * 2)) * c.t1) / 2 ^ 11
  let rt2 := ((((rawt / 2 ^ 4) - c.t0) * ((rawt / 2 ^ 4) - c.t0) / 2 ^ 12) * c.t2) / 2 ^ 14
  rt1 + rt2

/-- `temp` of line 65: the integer temperature in centi-degrees. -/
def bmeTemp (c : BMECal) (rawt : ℤ) : ℤ :=
  ((c.tfine rawt * 5) + 128) / 2 ^ 8

/-- The divisor `rp1` of line 73, whose zero test guards the pressure
division. -/
def pDivisor (c : BMECal) (rawt : ℤ) : ℤ :=
  let rp1a := c.tfine rawt - 128000
  let rp1b := ((rp1a * rp1a * c.p2) / 2 ^ 8) + ((rp1a * c.p1) * 2 ^ 12)
  ((2 ^ 47 + rp1b) * c.p0) / 2 ^ 33

/-- The pressure pipeline of lines 68–81, exactly as the code runs it:
all steps are integer arithmetic except line 78, Python 3's float true
division `int((((pres << 31) - rp2) * 3125) / rp1)`, modelled exactly
by `pyIntTrueDiv`.  The result is the integer `pres` in 1/256 Pa; the
zero-divisor case short-circuits to `some 0`. -/
def bmePres (c : BMECal) (rawp rawt : ℤ) : Option ℤ :=
  let rp1a := c.tfine rawt - 128000
  let rp2a := rp1a * rp1a * c.p5
  let rp2b := rp2a + ((rp1a * c.p4) * 2 ^ 17)
  let rp2c := rp2b + (c.p3 * 2 ^ 35)
  let rp1b := ((rp1a * rp1a * c.p2) / 2 ^ 8) + ((rp1a * c.p1) * 2 ^ 12)
  let rp1c := ((2 ^ 47 + rp1b) * c.p0) / 2 ^ 33
  if rp1c = 0 then some 0
  else
    match pyIntTrueDiv ((((1048576 - rawp) * 2 ^ 31) - rp2c) * 3125) rp1c with
    | none => none
    | some presB =>
      let rp1d := (c.p8 * (presB / 2 ^ 13) * (presB / 2 ^ 13)) / 2 ^ 25
      let rp2d := (c.p7 * presB) / 2 ^ 19
      some (((presB + rp1d + rp2d) / 2 ^ 8) + (c.p6 * 2 ^ 4))

/-- The exact-integer reference pipeline: identical to `bmePres`
except that the line-78 step is exact truncating integer division
(the manufacturer's 64-bit C formula, where `/` truncates toward
zero), with no floating point anywhere. -/
def bmePresIntRef (c : BMECal) (rawp rawt : ℤ) : Option ℤ :=
  let rp1a := c.tfine rawt - 128000
  let rp2a := rp1a * rp1a * c.p5
  let rp2b := rp2a + ((rp1a * c.p4) * 2 ^ 17)
  let rp2c := rp2b + (c.p3 * 2 ^ 35)
  let rp1b := ((rp1a * rp1a * c.p2) / 2 ^ 8) + ((rp1a * c.p1) * 2 ^ 12)
  let rp1c := ((2 ^ 47 + rp1b) * c.p0) / 2 ^ 33
  if rp1c = 0 then some 0
  else
    let presB := Int.tdiv ((((1048576 - rawp) * 2 ^ 31) - rp2c) * 3125) rp1c
    let rp1d := (c.p8 * (presB / 2 ^ 13) * (presB / 2 ^ 13)) / 2 ^ 25
    let rp2d := (c.p7 * presB) / 2 ^ 19
    some (((presB + rp1d + rp2d) / 2 ^ 8) + (c.p6 * 2 ^ 4))

/-- The pair returned by `reading()` (line 83): the final physical
values, produced by the only intended float divisions, modelled as
exact rational division. -/
def bmeReading (c : BMECal) (rawp rawt : ℤ) : Option (ℚ × ℚ) :=
  (c.bmePres rawp rawt).map fun p =>
    ((c.bmeTemp rawt : ℚ) / 100, ((p : ℚ) / 256) / 100)

end BMECal

/-! ## Raw readings

A raw reading is one parsed JSON line.  `Sensor.update` and
`SensorList.process` only ever test membership of, and read, the
fields below, so the arbitrary dict is embedded as a structure of
optional fields (absent key = `none`).  Numeric JSON values are
modelled as exact rationals. -/

structure Reading where
  id : Option ℤ := none
  time : Option String := none
  model : Option String := none
  channel : Option String := none
  battery_ok : Option ℤ := none
  temperature_C : Option ℚ := none
  temperature_F : Option ℚ := none
  temperature_1_C : Option ℚ := none
  temperature_1_F : Option ℚ := none
  humidity : Option ℚ := none
  rssi : Option ℚ := none
  snr : Option ℚ := none
  noise : Option ℚ := none
  wind_avg_mi_h : Option ℚ := none
  wind_avg_km_h : Option ℚ := none
  wind_dir_deg : Option ℚ := none
  strike_count : Option ℚ := none
  strike_distance : Option ℚ := none
  uv : Option ℚ := none
  lux : Option ℚ := none
  rain_in : Option ℚ := none
  message_type : Option ℤ := none

/-! ## Per-sensor state (`Sensor.__init__`, lines 156–189) -/

structure Sensor where
  model : String
  myID : ℤ
  name : String
  measure_time : String
  temp : ℚ
  humidity : ℚ
  battery : Bool
  channel : String
  ptemp : ℚ
  wind_speed : List ℚ
  wind_dir : ℚ
  last_rain : ℚ
  rain : ℚ
  strikes : List ℚ
  strike_dist : List ℚ
  uv : ℚ
  lux : ℚ
  seen37 : Bool
  seen38 : Bool
  seen39 : Bool
  rssi : ℚ
  noise : ℚ
  snr : ℚ

namespace Sensor

/-- `Sensor(model, sID, name)` constructor defaults. -/
def init (model : String) (sID : ℤ) (name : String) : Sensor where
  model := model
  myID := sID
  name := name
  measure_time := ""
  temp := 0
  humidity := 0
  battery := true
  channel := "Z"
  ptemp := 0
  wind_speed := []
  wind_dir := 0
  last_rain := -1
  rain := 0
  strikes := []
  strike_dist := []
  uv := 0
  lux := 0
  seen37 := false
  seen38 := false
  seen39 := false
  rssi := 0
  noise := 0
  snr := 0

/-! ### The field-merge steps of `Sensor.update` (lines 196–264),
one per `if 'field' in jsonData:` block, in source order. -/

def stepChannel (d : Reading) (s : Sensor) : Sensor :=
  match d.channel with
  | some v => { s with channel := v }
  | none => s

def stepBattery (d : Reading) (s : Sensor) : Sensor :=
  match d.battery_ok with
  | some v => { s with battery := v == 1 }
  | none => s

def stepTempC (d : Reading) (s : Sensor) : Sensor :=
  match d.temperature_C with
  | some v => { s with temp := v }
  | none => s

def stepTempF (d : Reading) (s : Sensor) : Sensor :=
  match d.temperature_F with
  | some v => { s with temp := (v - 32) * (5 / 9) }
  | none => s

def stepPTempC (d : Reading) (s : Sensor) : Sensor :=
  match d.temperature_1_C with
  | some v => { s with ptemp := v }
  | none => s

def stepPTempF (d : Reading) (s : Sensor) : Sensor :=
  match d.temperature_1_F with
  | some v => { s with ptemp := (v - 32) * (5 / 9) }
  | none => s

def stepHumidity (d : Reading) (s : Sensor) : Sensor :=
  match d.humidity with
  | some v => { s with humidity := v }
  | none => s

def stepTime (d : Reading) (s : Sensor) : Sensor :=
  match d.time with
  | some v => { s with measure_time := v }
  | none => s

def stepRssi (d : Reading) (s : Sensor) : Sensor :=
  match d.rssi with
  | some v => { s with rssi := v }
  | none => s

def stepSnr (d : Reading) (s : Sensor) : Sensor :=
  match d.snr with
  | some v => { s with snr := v }
  | none => s

def stepNoise (d : Reading) (s : Sensor) : Sensor :=
  match d.noise with
  | some v => { s with noise := v }
  | none => s

def stepWindMi (d : Reading) (s : Sensor) : Sensor :=
  match d.wind_avg_mi_h with
  | some v => { s with wind_speed := s.wind_speed ++ [v] }
  | none => s

def stepWindKm (d : Reading) (s : Sensor) : Sensor :=
  match d.wind_avg_km_h with
  | some v => { s with wind_speed := s.wind_speed ++ [v / 1.609344] }
  | none => s

def stepWindDir (d : Reading) (s : Sensor) : Sensor :=
  match d.wind_dir_deg with
  | some v => { s with wind_dir := v }
  | none => s

def stepStrikes (d : Reading) (s : Sensor) : Sensor :=
  match d.strike_count with
  | some v => { s with strikes := s.strikes ++ [v] }
  | none => s

def stepStrikeDist (d : Reading) (s : Sensor) : Sensor :=
  match d.strike_distance with
  | some v => { s with strike_dist := s.strike_dist ++ [v] }
  | none => s

def stepUv (d : Reading) (s : Sensor) : Sensor :=
  match d.uv with
  | some v => { s with uv := v }
  | none => s

def stepLux (d : Reading) (s : Sensor) : Sensor :=
  match d.lux with
  | some v => { s with lux := v }
  | none => s

/-- Lines 253–256: seed `last_rain` on a first sighting (sentinel
still negative), then overwrite `rain`. -/
def stepRain (d : Reading) (s : Sensor) : Sensor :=
  match d.rain_in with
  | some v =>
    if s.last_rain < 0 then { s with last_rain := v, rain := v }
    else { s with rain := v }
  | none => s

/-- Lines 258–264: mark the subtype bit for a valid code 37/38/39; an
out-of-range code is only printed, no state change. -/
def stepMessageType (d : Reading) (s : Sensor) : Sensor :=
  match d.message_type with
  | some v =>
    if v = 37 then { s with seen37 := true }
    else if v = 38 then { s with seen38 := true }
    else if v = 39 then { s with seen39 := true }
    else s
  | none => s

/-- The whole merge phase of `Sensor.update`, lines 196–264. -/
def applyFields (s : Sensor) (d : Reading) : Sensor :=
  stepMessageType d (stepRain d (stepLux d (stepUv d (stepStrikeDist d
    (stepStrikes d (stepWindDir d (stepWindKm d (stepWindMi d (stepNoise d
      (stepSnr d (stepRssi d (stepTime d (stepHumidity d (stepPTempF d
        (stepPTempC d (stepTempF d (stepTempC d (stepBattery d
          (stepChannel d s)))))))))))))))))))

/-- Line 193: a reading whose `id` is present and differs from this
sensor's id is rejected without mutation. -/
def idMismatch (s : Sensor) (d : Reading) : Bool :=
  match d.id with
  | some j => j != s.myID
  | none => false

/-- `Sensor.update` (lines 191–275): merge fields, then report
completeness — all three subtype bits for `Acurite-Atlas`, always for
any other model. -/
def update (s : Sensor) (d : Reading) : Sensor × Bool :=
  if idMismatch s d then (s, false)
  else
    let t := applyFields s d
    if t.model = "Acurite-Atlas" then (t, t.seen37 && t.seen38 && t.seen39)
    else (t, true)

/-- The numeric values interpolated into the Atlas part of the JSON
payload (lines 304–322). -/
structure AtlasPub where
  wind_speed_avg : ℚ
  strikes_avg : ℚ
  strike_dist_avg : ℚ
  rain_delta : ℚ
  rain : ℚ

/-- `Sensor.publishMQTTJSON` (lines 283–337), abstracting the MQTT
client and string formatting: returns the post-publish sensor state
and, for an Atlas sensor, the published accumulator-derived values.
`none` is the `ZeroDivisionError` raised by `sum(xs) / len(xs)` on an
empty accumulator (`wind_speed` at line 315, `strikes` at line 316,
`strike_dist` at line 317, in that order). -/
def publishMQTTJSON (s : Sensor) : Option (Sensor × Option AtlasPub) :=
  if s.model = "Acurite-Atlas" then
    if s.wind_speed.length = 0 then none
    else if s.strikes.length = 0 then none
    else if s.strike_dist.length = 0 then none
    else
      let ws := s.wind_speed.sum / (s.wind_speed.length : ℚ)
      let st := s.strikes.sum / (s.strikes.length : ℚ)
      let sd := s.strike_dist.sum / (s.strike_dist.length : ℚ)
      let delta_rain0 := s.rain - s.last_rain
      let delta_rain := if delta_rain0 < 0 then 0 else delta_rain0
      some ({ s with last_rain := s.rain, wind_speed := [], strikes := [],
                     strike_dist := [],
                     seen37 := false, seen38 := false, seen39 := false },
            some ⟨ws, st, sd, delta_rain, s.rain⟩)
  else some (s, none)

end Sensor

/-! ## The registry (`SensorList`, lines 115–154) -/

structure SensorList where
  lastMessage : List (ℤ × String)
  sensors : List (ℤ × Sensor)
  sensorNames : List (ℤ × String)

namespace SensorList

/-- `SensorList(sensorNames)` constructor (lines 116–122). -/
def mkList (sensorNames : List (ℤ × String)) : SensorList :=
  ⟨[], [], sensorNames⟩

/-- `SensorList.process` (lines 124–154).  The generator is embedded
as the pair (updated registry, list of yielded sensors).  Note the
dedup `else` branch of line 138 executes
`self.lastMessage[data['id']] = data['time']`, which raises `KeyError`
when the reading has no `time` field; `Except.error ()` models that
exception. -/
def process (sl : SensorList) (d : Reading) :
    Except Unit (SensorList × List Sensor) :=
  match d.id with
  | none => .ok (sl, [])
  | some i =>
    match d.time with
    | none =>
      -- `'time' in data` is false, so the duplicate test (line 131) is
      -- false and the else branch (line 138) raises `KeyError` on
      -- `data['time']`.
      .error ()
    | some t =>
      if lookupA sl.lastMessage i = some t then .ok (sl, [])
      else
        let sl1 : SensorList := { sl with lastMessage := (i, t) :: sl.lastMessage }
        let s0 : Sensor :=
          match lookupA sl1.sensors i with
          | some s => s
          | none => Sensor.init (d.model.getD "") i ((lookupA sl1.sensorNames i).getD "")
        let r := Sensor.update s0 d
        let sl2 : SensorList := { sl1 with sensors := (i, r.1) :: sl1.sensors }
        .ok (sl2, if r.2 then [r.1] else [])

end SensorList

/-! ## The watchdog-relevant slice of `main`'s consumer loop
(lines 436–448): one dequeued, already-parsed reading.  `publish`
calls are abstracted; `lastInputTime` is the watchdog clock, read at
line 460 against the 60-unit stall threshold. -/

structure MainState where
  sl : SensorList
  ignored : List ℤ
  lastInputTime : ℚ

/-- Lines 436–448: drop a reading without `id`; drop an ignored id;
first sighting of an unknown id publishes a notice and ignores it
thereafter; otherwise delegate to `SensorList.process` and, for each
yielded (completed) sensor, publish it and only then advance
`lastInputTime` to `thisTime`.  Uncaught exceptions (`KeyError` from
`process`, `ZeroDivisionError` from `publishMQTTJSON`) abort the loop:
`Except.error ()`. -/
def mainIngest (st : MainState) (thisTime : ℚ) (d : Reading) :
    Except Unit MainState :=
  match d.id with
  | none => .ok st
  | some i =>
    if i ∈ st.ignored then .ok st
    else if (lookupA st.sl.sensorNames i).isNone then
      .ok { st with ignored := st.ignored ++ [i] }
    else
      match SensorList.process st.sl d with
      | .error e => .error e
      | .ok (sl', emitted) =>
        match emitted with
        | [] => .ok { st with sl := sl' }
        | s :: _ =>
          match s.publishMQTTJSON with
          | none => .error ()
          | some (s', _) =>
            .ok ⟨{ sl' with sensors := (i, s') :: sl'.sensors }, st.ignored, thisTime⟩

/-! ## Concrete fixtures used by witnesses and counterexamples -/

/-- Calibration exhibiting the float-division divergence of line 78:
`tcal = [0, 32767, 0]`, `pcal = [1, -32768, 0, 0, 0, 0, 0, 0, 0]`
(all within the signed/unsigned 16-bit ranges the device reports). -/
def calF : BMECal := ⟨0, 32767, 0, 1, -32768, 0, 0, 0, 0, 0, 0, 0⟩

/-- All-zero calibration: `pcal[0] = 0` forces the pressure divisor to
zero. -/
def calZ : BMECal := ⟨0, 0, 0, 0, 0, 0, 0, 0, 0, 0, 0, 0⟩

def atlasNames : List (ℤ × String) := [(1, "atlas")]

def slN : SensorList := SensorList.mkList atlasNames

/-- Marker-only Atlas readings: subtype 37/38/39 with distinct
timestamps and no wind/strike/rain payload fields. -/
def rM37 : Reading :=
  { id := some 1, time := some "t1", model := some "Acurite-Atlas", message_type := some 37 }

def rM38 : Reading := { id := some 1, time := some "t2", message_type := some 38 }

def rM39 : Reading := { id := some 1, time := some "t3", message_type := some 39 }

def sM1 : Sensor := { Sensor.init "Acurite-Atlas" 1 "atlas" with measure_time := "t1", seen37 := true }

def sM2 : Sensor := { sM1 with measure_time := "t2", seen38 := true }

def sM3 : Sensor := { sM2 with measure_time := "t3", seen39 := true }

def slM1 : SensorList := ⟨[(1, "t1")], [(1, sM1)], atlasNames⟩

def slM2 : SensorList := ⟨[(1, "t2"), (1, "t1")], [(1, sM2), (1, sM1)], atlasNames⟩

def slM3 : SensorList := ⟨[(1, "t3"), (1, "t2"), (1, "t1")], [(1, sM3), (1, sM2), (1, sM1)], atlasNames⟩

/-- Main-loop state before the Atlas marker reading arrives. -/
def stM : MainState := ⟨slN, [], 0⟩

def towerNames : List (ℤ × String) := [(2, "tower")]

def rTower : Reading := { id := some 2, time := some "tt", model := some "Acurite-Tower" }

def sT1 : Sensor := { Sensor.init "Acurite-Tower" 2 "tower" with measure_time := "tt" }

def slT1 : SensorList := ⟨[(2, "tt")], [(2, sT1)], towerNames⟩

def stT : MainState := ⟨SensorList.mkList towerNames, [], 0⟩

/-- Atlas sensor window with payload fields but no rain sighting:
subtype-37 reading carrying one wind/strike/distance sample each. -/
def rW37 : Reading :=
  { id := some 1, time := some "t1", model := some "Acurite-Atlas", message_type := some 37,
    wind_avg_mi_h := some 1, strike_count := some 1, strike_distance := some 1 }

def sW0 : Sensor := Sensor.init "Acurite-Atlas" 1 "atlas"

def sW1 : Sensor := (Sensor.update sW0 rW37).1

def sW2 : Sensor := (Sensor.update sW1 rM38).1

def sW3 : Sensor := (Sensor.update sW2 rM39).1

/-- The state `publishMQTTJSON` leaves behind after emitting `sW3`:
baseline advanced to the default rain value `0` although rain was
never sighted. -/
def sW4 : Sensor := { Sensor.init "Acurite-Atlas" 1 "atlas" with measure_time := "t3", last_rain := 0 }

def pubW : Sensor.AtlasPub := ⟨1, 1, 1, 1, 0⟩

/-- The sensor's first-ever cumulative-rain sighting (value `5`),
arriving after the emission above. -/
def rW4rain : Reading :=
  { id := some 1, time := some "t4", message_type := some 37, rain_in := some 5 }

/-- Fresh Atlas sensor and a reading carrying payload and a first rain
sighting, for the seeded-baseline witness. -/
def sV0 : Sensor := Sensor.init "Acurite-Atlas" 3 ""

def rVall : Reading :=
  { id := some 3, time := some "t", message_type := some 37, wind_avg_mi_h := some 2,
    strike_count := some 1, strike_distance := some 4, rain_in := some 5 }

def sVpost : Sensor :=
  { Sensor.init "Acurite-Atlas" 3 "" with measure_time := "t", last_rain := 5, rain := 5 }

def pubV : Sensor.AtlasPub := ⟨2, 1, 4, 0, 5⟩

/-- A completed Atlas sensor with non-empty accumulators, about to be
emitted. -/
def sAtl : Sensor :=
  { Sensor.init "Acurite-Atlas" 7 "x" with
    wind_speed := [2], strikes := [3], strike_dist := [4],
    seen37 := true, seen38 := true, seen39 := true, rain := 5 }

def sAtlPost : Sensor := { Sensor.init "Acurite-Atlas" 7 "x" with last_rain := 5, rain := 5 }

def pubAtl : Sensor.AtlasPub := ⟨2, 3, 4, 6, 5⟩

def r37only : Reading := { id := some 7, message_type := some 37 }

/-- Non-Atlas sensors and readings for the completion and
unit-conversion witnesses. -/
def sT0 : Sensor := Sensor.init "Acurite-Tower" 9 ""

def dT : Reading := { id := some 9 }

def sA1 : Sensor := { Sensor.init "Acurite-Atlas" 9 "" with seen38 := true, seen39 := true }

def dA37 : Reading := { id := some 9, message_type := some 37 }

def sTw : Sensor := Sensor.init "Acurite-Tower" 4 ""

def dF32 : Reading := { temperature_F := some 32 }

def dKm : Reading := { wind_avg_km_h := some 1.609344 }

def dCF : Reading := { temperature_C := some 100, temperature_F := some 32 }

/-! ## Helper lemmas -/

@[simp] theorem lookupA_nil {α : Type} (i : ℤ) : lookupA ([] : List (ℤ × α)) i = none := rfl

@[simp] theorem lookupA_cons {α : Type} (k : ℤ) (v : α) (l : List (ℤ × α)) (i : ℤ) :
    lookupA ((k, v) :: l) i = if i = k then some v else lookupA l i := rfl

theorem pyIntTrueDiv_isSome {x y : ℤ} (h : y ≠ 0) : (pyIntTrueDiv x y).isSome = true := by
  unfold pyIntTrueDiv
  rw [if_neg h]
  split <;> rfl

theorem stepChannel_eq (d : Reading) (s : Sensor) :
    Sensor.stepChannel d s = { s with channel := d.channel.getD s.channel } := by
  cases h : d.channel <;> simp [Sensor.stepChannel, h]

theorem stepBattery_eq (d : Reading) (s : Sensor) :
    Sensor.stepBattery d s =
      { s with battery := (d.battery_ok.map fun v => v == 1).getD s.battery } := by
  cases h : d.battery_ok <;> simp [Sensor.stepBattery, h]

theorem stepTempC_eq (d : Reading) (s : Sensor) :
    Sensor.stepTempC d s = { s with temp := d.temperature_C.getD s.temp } := by
  cases h : d.temperature_C <;> simp [Sensor.stepTempC, h]

theorem stepTempF_eq (d : Reading) (s : Sensor) :
    Sensor.stepTempF d s =
      { s with temp := (d.temperature_F.map fun v => (v - 32) * (5 / 9)).getD s.temp } := by
  cases h : d.temperature_F <;> simp [Sensor.stepTempF, h]

theorem stepPTempC_eq (d : Reading) (s : Sensor) :
    Sensor.stepPTempC d s = { s with ptemp := d.temperature_1_C.getD s.ptemp } := by
  cases h : d.temperature_1_C <;> simp [Sensor.stepPTempC, h]

theorem stepPTempF_eq (d : Reading) (s : Sensor) :
    Sensor.stepPTempF d s =
      { s with ptemp := (d.temperature_1_F.map fun v => (v - 32) * (5 / 9)).getD s.ptemp } := by
  cases h : d.temperature_1_F <;> simp [Sensor.stepPTempF, h]

theorem stepHumidity_eq (d : Reading) (s : Sensor) :
    Sensor.stepHumidity d s = { s with humidity := d.humidity.getD s.humidity } := by
  cases h : d.humidity <;> simp [Sensor.stepHumidity, h]

theorem stepTime_eq (d : Reading) (s : Sensor) :
    Sensor.stepTime d s = { s with measure_time := d.time.getD s.measure_time } := by
  cases h : d.time <;> simp [Sensor.stepTime, h]

theorem stepRssi_eq (d : Reading) (s : Sensor) :
    Sensor.stepRssi d s = { s with rssi := d.rssi.getD s.rssi } := by
  cases h : d.rssi <;> simp [Sensor.stepRssi, h]

theorem stepSnr_eq (d : Reading) (s : Sensor) :
    Sensor.stepSnr d s = { s with snr := d.snr.getD s.snr } := by
  cases h : d.snr <;> simp [Sensor.stepSnr, h]

theorem stepNoise_eq (d : Reading) (s : Sensor) :
    Sensor.stepNoise d s = { s with noise := d.noise.getD s.noise } := by
  cases h : d.noise <;> simp [Sensor.stepNoise, h]

theorem stepWindMi_eq (d : Reading) (s : Sensor) :
    Sensor.stepWindMi d s =
      { s with wind_speed := s.wind_speed ++ d.wind_avg_mi_h.toList } := by
  cases h : d.wind_avg_mi_h <;> simp [Sensor.stepWindMi, h]

theorem stepWindKm_eq (d : Reading) (s : Sensor) :
    Sensor.stepWindKm d s =
      { s with wind_speed :=
          s.wind_speed ++ (d.wind_avg_km_h.map fun v => v / 1.609344).toList } := by
  cases h : d.wind_avg_km_h <;> simp [Sensor.stepWindKm, h]

theorem stepWindDir_eq (d : Reading) (s : Sensor) :
    Sensor.stepWindDir d s = { s with wind_dir := d.wind_dir_deg.getD s.wind_dir } := by
  cases h : d.wind_dir_deg <;> simp [Sensor.stepWindDir, h]

theorem stepStrikes_eq (d : Reading) (s : Sensor) :
    Sensor.stepStrikes d s = { s with strikes := s.strikes ++ d.strike_count.toList } := by
  cases h : d.strike_count <;> simp [Sensor.stepStrikes, h]

theorem stepStrikeDist_eq (d : Reading) (s : Sensor) :
    Sensor.stepStrikeDist d s =
      { s with strike_dist := s.strike_dist ++ d.strike_distance.toList } := by
  cases h : d.strike_distance <;> simp [Sensor.stepStrikeDist, h]

theorem stepUv_eq (d : Reading) (s : Sensor) :
    Sensor.stepUv d s = { s with uv := d.uv.getD s.uv } := by
  cases h : d.uv <;> simp [Sensor.stepUv, h]

theorem stepLux_eq (d : Reading) (s : Sensor) :
    Sensor.stepLux d s = { s with lux := d.lux.getD s.lux } := by
  cases h : d.lux <;> simp [Sensor.stepLux, h]

theorem stepRain_eq (d : Reading) (s : Sensor) :
    Sensor.stepRain d s =
      { s with
        last_rain := if s.last_rain < 0 then d.rain_in.getD s.last_rain else s.last_rain,
        rain := d.rain_in.getD s.rain } := by
  cases h : d.rain_in with
  | none => simp [Sensor.stepRain, h, ite_self]
  | some v =>
    simp only [Sensor.stepRain, h, Option.getD_some]
    by_cases hc : s.last_rain < 0 <;> simp [hc]

theorem stepMessageType_eq (d : Reading) (s : Sensor) :
    Sensor.stepMessageType d s =
      { s with
        seen37 := s.seen37 || (d.message_type == some 37),
        seen38 := s.seen38 || (d.message_type == some 38),
        seen39 := s.seen39 || (d.message_type == some 39) } := by
  cases h : d.message_type with
  | none => simp [Sensor.stepMessageType, h]
  | some v =>
    simp only [Sensor.stepMessageType, h]
    by_cases h37 : v = 37
    · subst h37; simp
    · by_cases h38 : v = 38
      · subst h38; simp
      · by_cases h39 : v = 39
        · subst h39; simp
        · have e37 : (v == (37 : ℤ)) = false := by simp [h37]
          have e38 : (v == (38 : ℤ)) = false := by simp [h38]
          have e39 : (v == (39 : ℤ)) = false := by simp [h39]
          simp [h37, h38, h39, e37, e38, e39]

theorem applyFields_model (s : Sensor) (d : Reading) :
    (Sensor.applyFields s d).model = s.model := by
  simp [Sensor.applyFields, stepChannel_eq, stepBattery_eq, stepTempC_eq, stepTempF_eq,
    stepPTempC_eq, stepPTempF_eq, stepHumidity_eq, stepTime_eq, stepRssi_eq, stepSnr_eq,
    stepNoise_eq, stepWindMi_eq, stepWindKm_eq, stepWindDir_eq, stepStrikes_eq,
    stepStrikeDist_eq, stepUv_eq, stepLux_eq, stepRain_eq, stepMessageType_eq]

theorem applyFields_temp (s : Sensor) (d : Reading) :
    (Sensor.applyFields s d).temp =
      (d.temperature_F.map fun v => (v - 32) * (5 / 9)).getD (d.temperature_C.getD s.temp) := by
  simp [Sensor.applyFields, stepChannel_eq, stepBattery_eq, stepTempC_eq, stepTempF_eq,
    stepPTempC_eq, stepPTempF_eq, stepHumidity_eq, stepTime_eq, stepRssi_eq, stepSnr_eq,
    stepNoise_eq, stepWindMi_eq, stepWindKm_eq, stepWindDir_eq, stepStrikes_eq,
    stepStrikeDist_eq, stepUv_eq, stepLux_eq, stepRain_eq, stepMessageType_eq]

theorem applyFields_wind_speed (s : Sensor) (d : Reading) :
    (Sensor.applyFields s d).wind_speed =
      s.wind_speed ++ d.wind_avg_mi_h.toList ++
        (d.wind_avg_km_h.map fun v => v / 1.609344).toList := by
  simp [Sensor.applyFields, stepChannel_eq, stepBattery_eq, stepTempC_eq, stepTempF_eq,
    stepPTempC_eq, stepPTempF_eq, stepHumidity_eq, stepTime_eq, stepRssi_eq, stepSnr_eq,
    stepNoise_eq, stepWindMi_eq, stepWindKm_eq, stepWindDir_eq, stepStrikes_eq,
    stepStrikeDist_eq, stepUv_eq, stepLux_eq, stepRain_eq, stepMessageType_eq]

theorem applyFields_seen37 (s : Sensor) (d : Reading) :
    (Sensor.applyFields s d).seen37 = (s.seen37 || (d.message_type == some 37)) := by
  simp [Sensor.applyFields, stepChannel_eq, stepBattery_eq, stepTempC_eq, stepTempF_eq,
    stepPTempC_eq, stepPTempF_eq, stepHumidity_eq, stepTime_eq, stepRssi_eq, stepSnr_eq,
    stepNoise_eq, stepWindMi_eq, stepWindKm_eq, stepWindDir_eq, stepStrikes_eq,
    stepStrikeDist_eq, stepUv_eq, stepLux_eq, stepRain_eq, stepMessageType_eq]

theorem applyFields_seen38 (s : Sensor) (d : Reading) :
    (Sensor.applyFields s d).seen38 = (s.seen38 || (d.message_type == some 38)) := by
  simp [Sensor.applyFields, stepChannel_eq, stepBattery_eq, stepTempC_eq, stepTempF_eq,
    stepPTempC_eq, stepPTempF_eq, stepHumidity_eq, stepTime_eq, stepRssi_eq, stepSnr_eq,
    stepNoise_eq, stepWindMi_eq, stepWindKm_eq, stepWindDir_eq, stepStrikes_eq,
    stepStrikeDist_eq, stepUv_eq, stepLux_eq, stepRain_eq, stepMessageType_eq]

theorem applyFields_seen39 (s : Sensor) (d : Reading) :
    (Sensor.applyFields s d).seen39 = (s.seen39 || (d.message_type == some 39)) := by
  simp [Sensor.applyFields, stepChannel_eq, stepBattery_eq, stepTempC_eq, stepTempF_eq,
    stepPTempC_eq, stepPTempF_eq, stepHumidity_eq, stepTime_eq, stepRssi_eq, stepSnr_eq,
    stepNoise_eq, stepWindMi_eq, stepWindKm_eq, stepWindDir_eq, stepStrikes_eq,
    stepStrikeDist_eq, stepUv_eq, stepLux_eq, stepRain_eq, stepMessageType_eq]

theorem applyFields_last_rain (s : Sensor) (d : Reading) :
    (Sensor.applyFields s d).last_rain =
      if s.last_rain < 0 then d.rain_in.getD s.last_rain else s.last_rain := by
  simp [Sensor.applyFields, stepChannel_eq, stepBattery_eq, stepTempC_eq, stepTempF_eq,
    stepPTempC_eq, stepPTempF_eq, stepHumidity_eq, stepTime_eq, stepRssi_eq, stepSnr_eq,
    stepNoise_eq, stepWindMi_eq, stepWindKm_eq, stepWindDir_eq, stepStrikes_eq,
    stepStrikeDist_eq, stepUv_eq, stepLux_eq, stepRain_eq, stepMessageType_eq]

theorem applyFields_rain (s : Sensor) (d : Reading) :
    (Sensor.applyFields s d).rain = d.rain_in.getD s.rain := by
  simp [Sensor.applyFields, stepChannel_eq, stepBattery_eq, stepTempC_eq, stepTempF_eq,
    stepPTempC_eq, stepPTempF_eq, stepHumidity_eq, stepTime_eq, stepRssi_eq, stepSnr_eq,
    stepNoise_eq, stepWindMi_eq, stepWindKm_eq, stepWindDir_eq, stepStrikes_eq,
    stepStrikeDist_eq, stepUv_eq, stepLux_eq, stepRain_eq, stepMessageType_eq]

theorem update_fst (s : Sensor) (d : Reading) (h : Sensor.idMismatch s d = false) :
    (Sensor.update s d).1 = Sensor.applyFields s d := by
  simp only [Sensor.update, h, Bool.false_eq_true, if_false]
  split <;> rfl

theorem update_snd_atlas (s : Sensor) (d : Reading) (h : Sensor.idMismatch s d = false)
    (hm : s.model = "Acurite-Atlas") :
    (Sensor.update s d).2 =
      ((Sensor.applyFields s d).seen37 && (Sensor.applyFields s d).seen38 &&
        (Sensor.applyFields s d).seen39) := by
  have hm' : (Sensor.applyFields s d).model = "Acurite-Atlas" := by
    rw [applyFields_model]; exact hm
  simp [Sensor.update, h, hm']

theorem update_snd_other (s : Sensor) (d : Reading) (h : Sensor.idMismatch s d = false)
    (hm : s.model ≠ "Acurite-Atlas") :
    (Sensor.update s d).2 = true := by
  have hm' : (Sensor.applyFields s d).model ≠ "Acurite-Atlas" := by
    rw [applyFields_model]; exact hm
  simp [Sensor.update, h, hm']

theorem publish_some_pub_model {s s' : Sensor} {pub : Sensor.AtlasPub}
    (h : Sensor.publishMQTTJSON s = some (s', some pub)) :
    s.model = "Acurite-Atlas" := by
  by_cases hm : s.model = "Acurite-Atlas"
  · exact hm
  · rw [Sensor.publishMQTTJSON, if_neg hm] at h
    simp at h

theorem publish_atlas_eq {s s' : Sensor} {pub : Option Sensor.AtlasPub}
    (hm : s.model = "Acurite-Atlas") (h : Sensor.publishMQTTJSON s = some (s', pub)) :
    s' = { s with last_rain := s.rain, wind_speed := [], strikes := [], strike_dist := [],
                  seen37 := false, seen38 := false, seen39 := false } ∧
    pub = some ⟨s.wind_speed.sum / s.wind_speed.length, s.strikes.sum / s.strikes.length,
                s.strike_dist.sum / s.strike_dist.length,
                if s.rain - s.last_rain < 0 then 0 else s.rain - s.last_rain, s.rain⟩ := by
  rw [Sensor.publishMQTTJSON, if_pos hm] at h
  split_ifs at h with h1 h2 h3
  simp only [Option.some.injEq, Prod.mk.injEq] at h
  exact ⟨h.1.symm, h.2.symm⟩

theorem publish_none_iff {s : Sensor} (hm : s.model = "Acurite-Atlas") :
    Sensor.publishMQTTJSON s = none ↔
      (s.wind_speed = [] ∨ s.strikes = [] ∨ s.strike_dist = []) := by
  rw [Sensor.publishMQTTJSON, if_pos hm]
  split_ifs with h1 h2 h3 <;>
    simp_all [List.length_eq_zero]

/-! ## Claim theorems -/

/-- Claim C1: the spec says a reading with an `id` but no `time` field
is always accepted by `SensorList.process` and never fails; the code
instead raises `KeyError` at line 138
(`self.lastMessage[data['id']] = data['time']`).  This theorem
evaluates the embedded code at the failing input `{"id": 1}`: the
result is the `KeyError` failure value, not an accepted reading. -/
theorem C1_missing_time_raises :
    SensorList.process slN { id := some 1 } = .error () := rfl

/-- Claim C2 (counterexample): a non-duplicate reading with a known id
(`rM37`: id 1 is in `sensorNames`, `lastMessage` is empty) that leaves
its Atlas sensor incomplete is processed by `mainIngest` at time 100,
yet the watchdog clock `lastInputTime` stays 0 instead of advancing to
the current time. -/
theorem C2_counterexample :
    lookupA stM.sl.sensorNames 1 = some "atlas" ∧
    SensorList.process stM.sl rM37 = .ok (slM1, []) ∧
    mainIngest stM 100 rM37 = .ok ⟨slM1, [], 0⟩ ∧
    (0 : ℚ) ≠ 100 := ⟨rfl, rfl, rfl, by norm_num⟩

/-- Claim C2 (amended): the watchdog clock `lastInputTime` advances to
`thisTime` exactly when `SensorList.process` yields a completed sensor
and its publish succeeds; an accepted non-duplicate known-id reading
that yields no completed sensor leaves the clock unchanged. -/
theorem C2_clock_characterization :
    (∀ (st : MainState) (t : ℚ) (d : Reading) (i : ℤ) (sl' : SensorList),
        d.id = some i → i ∉ st.ignored →
        (lookupA st.sl.sensorNames i).isSome = true →
        SensorList.process st.sl d = .ok (sl', []) →
        mainIngest st t d = .ok { st with sl := sl' }) ∧
    (∀ (st : MainState) (t : ℚ) (d : Reading) (i : ℤ) (sl' : SensorList) (s : Sensor)
        (rest : List Sensor) (s' : Sensor) (pub : Option Sensor.AtlasPub),
        d.id = some i → i ∉ st.ignored →
        (lookupA st.sl.sensorNames i).isSome = true →
        SensorList.process st.sl d = .ok (sl', s :: rest) →
        Sensor.publishMQTTJSON s = some (s', pub) →
        mainIngest st t d =
          .ok ⟨{ sl' with sensors := (i, s') :: sl'.sensors }, st.ignored, t⟩) := by
  constructor
  · intro st t d i sl' hid hig hknown hproc
    obtain ⟨v, hv⟩ := Option.isSome_iff_exists.mp hknown
    simp [mainIngest, hid, hv, hig, hproc]
  · intro st t d i sl' s rest s' pub hid hig hknown hproc hpub
    obtain ⟨v, hv⟩ := Option.isSome_iff_exists.mp hknown
    simp [mainIngest, hid, hv, hig, hproc, hpub]

/-- Claim C2 (witness): the characterization applied to the concrete
incomplete-Atlas ingest (clock stays 0) and to a completed Tower
ingest (clock advances to 100). -/
theorem C2_witness :
    mainIngest stM 100 rM37 = .ok { stM with sl := slM1 } ∧
    mainIngest stT 100 rTower = .ok ⟨{ slT1 with sensors := (2, sT1) :: slT1.sensors }, [], 100⟩ := by
  constructor
  · exact C2_clock_characterization.1 stM 100 rM37 1 slM1 rfl (by simp [stM]) rfl rfl
  · exact C2_clock_characterization.2 stT 100 rTower 2 slT1 sT1 [] sT1 none rfl
      (by simp [stT]) rfl rfl rfl

/-- Claim C3: the spec says every intermediate step of the pressure
compensation is exact truncating integer arithmetic with floating
point only at the final unit divisions; line 78 instead uses Python 3
float true division (`int((((pres << 31) - rp2) * 3125) / rp1)`).
At calibration `calF` and raw words `rawp = 0`, `rawt = 588096`
(raw byte block `[0, 0, 0, 143, 148, 0]`), the code's pipeline and the
exact-integer reference pipeline disagree on the integer pressure. -/
theorem C3_float_division_diverges :
    bmeRawP 0 0 0 = 0 ∧ bmeRawT 143 148 0 = 588096 ∧
    calF.bmePres 0 588096 = some 4581298449066667 ∧
    calF.bmePresIntRef 0 588096 = some 4581298449066666 :=
  ⟨by decide, by decide, by decide, by decide⟩

/-- Claim C4: `Sensor.update` on a reading with a matching id reports
completeness true iff, for the multi-part model `Acurite-Atlas`, all
three completion-set entries are marked after the merge; for any other
model it reports true unconditionally. -/
theorem C4_completion_policy (s : Sensor) (d : Reading) (h : d.id = some s.myID) :
    (s.model = "Acurite-Atlas" →
      ((Sensor.update s d).2 = true ↔
        ((Sensor.update s d).1.seen37 = true ∧ (Sensor.update s d).1.seen38 = true ∧
         (Sensor.update s d).1.seen39 = true))) ∧
    (s.model ≠ "Acurite-Atlas" → (Sensor.update s d).2 = true) := by
  have hidm : Sensor.idMismatch s d = false := by simp [Sensor.idMismatch, h]
  constructor
  · intro hm
    rw [update_snd_atlas s d hidm hm, update_fst s d hidm]
    simp [Bool.and_eq_true, and_assoc]
  · intro hm
    exact update_snd_other s d hidm hm

/-- Claim C4 (witness): an Atlas sensor with subtypes 38 and 39
already seen completes on a subtype-37 reading, and a Tower sensor
completes on any matching reading. -/
theorem C4_witness :
    (Sensor.update sA1 dA37).2 = true ∧ (Sensor.update sT0 dT).2 = true := by
  constructor
  · exact ((C4_completion_policy sA1 dA37 rfl).1 rfl).mpr ⟨rfl, rfl, rfl⟩
  · exact (C4_completion_policy sT0 dT rfl).2 (by decide)

/-- Claim C5 (counterexample): feeding the exact same reading twice
does not always yield exactly one emitted completed reading: the
incomplete Atlas marker reading `rM37` fed twice into a fresh registry
yields zero emissions (both calls return the empty list). -/
theorem C5_counterexample :
    SensorList.process slN rM37 = .ok (slM1, []) ∧
    SensorList.process slM1 rM37 = .ok (slM1, []) := ⟨rfl, rfl⟩

/-- Claim C5 (amended): after any call of `SensorList.process` on a
reading carrying an id and a time, an immediate second call with the
same reading is rejected as a duplicate: it returns the unchanged
registry and the empty sequence.  Hence two feedings emit exactly as
many completed readings as the first call alone (one when the first
call completes, zero otherwise). -/
theorem C5_second_call_empty :
    ∀ (sl : SensorList) (d : Reading) (i : ℤ) (t : String) (sl1 : SensorList)
      (out : List Sensor),
      d.id = some i → d.time = some t →
      SensorList.process sl d = .ok (sl1, out) →
      SensorList.process sl1 d = .ok (sl1, []) := by
  intro sl d i t sl1 out hid htime h
  by_cases hdup : lookupA sl.lastMessage i = some t
  · have h1 : SensorList.process sl d = .ok (sl, []) := by
      simp [SensorList.process, hid, htime, hdup]
    rw [h1] at h
    obtain ⟨h2, h3⟩ : sl = sl1 ∧ [] = out := by simpa using h
    subst h2
    simp [SensorList.process, hid, htime, hdup]
  · simp only [SensorList.process, hid, htime, if_neg hdup] at h
    obtain ⟨h2, h3⟩ : _ ∧ _ := by simpa using h
    subst h2
    simp [SensorList.process, hid, htime]

/-- Claim C5 (witness): the second feeding of the marker reading into
the registry that has just recorded it returns the registry unchanged
with no emission. -/
theorem C5_witness : SensorList.process slM1 rM37 = .ok (slM1, []) :=
  C5_second_call_empty slN rM37 1 "t1" slM1 [] rfl rfl rfl

/-- Claim C6 (amended): a cumulative-rain sighting seeds the
previous-rain baseline to the sighted value iff the stored baseline is
still negative (its initial sentinel `-1`); otherwise only the current
rain is overwritten.  At each emission the published delta is the
current rain minus the baseline clamped to `0` when negative, and the
baseline then advances to the current rain.  Hence a first sighting
whose update is immediately emitted yields delta `0` — but an emission
that precedes the first sighting advances the baseline to the default
rain `0`, after which the first-ever sighting no longer seeds. -/
theorem C6_rain_baseline :
    (∀ (s : Sensor) (d : Reading) (v : ℚ), Sensor.idMismatch s d = false →
        d.rain_in = some v → s.last_rain < 0 →
        (Sensor.update s d).1.last_rain = v ∧ (Sensor.update s d).1.rain = v) ∧
    (∀ (s : Sensor) (d : Reading) (v : ℚ), Sensor.idMismatch s d = false →
        d.rain_in = some v → ¬s.last_rain < 0 →
        (Sensor.update s d).1.last_rain = s.last_rain ∧ (Sensor.update s d).1.rain = v) ∧
    (∀ (s s' : Sensor) (pub : Sensor.AtlasPub),
        Sensor.publishMQTTJSON s = some (s', some pub) →
        pub.rain_delta = (if s.rain - s.last_rain < 0 then 0 else s.rain - s.last_rain) ∧
        s'.last_rain = s.rain) ∧
    (∀ (s : Sensor) (d : Reading) (v : ℚ) (s' : Sensor) (pub : Sensor.AtlasPub),
        Sensor.idMismatch s d = false → d.rain_in = some v → s.last_rain < 0 →
        Sensor.publishMQTTJSON (Sensor.update s d).1 = some (s', some pub) →
        pub.rain_delta = 0 ∧ s'.last_rain = v) := by
  refine ⟨?_, ?_, ?_, ?_⟩
  · intro s d v hidm hrain hneg
    rw [update_fst s d hidm]
    constructor
    · rw [applyFields_last_rain, if_pos hneg, hrain]
      rfl
    · rw [applyFields_rain, hrain]
      rfl
  · intro s d v hidm hrain hpos
    rw [update_fst s d hidm]
    constructor
    · rw [applyFields_last_rain, if_neg hpos]
    · rw [applyFields_rain, hrain]
      rfl
  · intro s s' pub h
    have hm := publish_some_pub_model h
    obtain ⟨hs', hpub⟩ := publish_atlas_eq hm h
    have hpub' := Option.some.inj hpub
    constructor
    · rw [hpub']
    · rw [hs']
  · intro s d v s' pub hidm hrain hneg hp
    have htl : (Sensor.update s d).1.last_rain = v := by
      rw [update_fst s d hidm, applyFields_last_rain, if_pos hneg, hrain]
      rfl
    have htr : (Sensor.update s d).1.rain = v := by
      rw [update_fst s d hidm, applyFields_rain, hrain]
      rfl
    have hm := publish_some_pub_model hp
    obtain ⟨hs', hpub⟩ := publish_atlas_eq hm hp
    have hpub' := Option.some.inj hpub
    constructor
    · rw [hpub']
      simp [htl, htr]
    · rw [hs']
      exact htr

/-- Claim C6 (counterexample): an Atlas window completed without any
rain sighting is emitted with rain delta `1` (`0 - (-1)`), and the
emission advances the baseline to `0`; the first-ever cumulative-rain
sighting (value `5`) that follows then does not seed the baseline (the
claim requires it to become `5`), so the delta of the next emission
would be the full `5`, not `0`. -/
theorem C6_counterexample :
    (Sensor.update sW2 rM39).2 = true ∧
    Sensor.publishMQTTJSON sW3 = some (sW4, some pubW) ∧
    pubW.rain_delta = 1 ∧
    sW4.last_rain = 0 ∧
    rW4rain.rain_in = some 5 ∧
    (Sensor.update sW4 rW4rain).1.rain = 5 ∧
    (Sensor.update sW4 rW4rain).1.last_rain = 0 := by
  have hup : sW3 = { Sensor.init "Acurite-Atlas" 1 "atlas" with
      measure_time := "t3", seen37 := true, seen38 := true, seen39 := true,
      wind_speed := [1], strikes := [1], strike_dist := [1] } := rfl
  have hpub : Sensor.publishMQTTJSON sW3 = some (sW4, some pubW) := by
    rw [hup]
    norm_num [Sensor.publishMQTTJSON, sW4, pubW, Sensor.init]
  have hlast : (Sensor.update sW4 rW4rain).1.last_rain = 0 := by
    rw [update_fst sW4 rW4rain rfl, applyFields_last_rain]
    norm_num [sW4, Sensor.init]
  have hrain : (Sensor.update sW4 rW4rain).1.rain = 5 := by
    rw [update_fst sW4 rW4rain rfl, applyFields_rain]
    rfl
  exact ⟨rfl, hpub, rfl, rfl, rfl, hrain, hlast⟩

/-- Claim C6 (witness): a fresh Atlas sensor whose first-ever rain
sighting (value `5`) arrives, with payload samples, before any
emission: the update seeds the baseline, and the emission publishes
rain delta `0` and advances the baseline to `5`. -/
theorem C6_witness :
    Sensor.idMismatch sV0 rVall = false ∧ sV0.last_rain < 0 ∧
    rVall.rain_in = some 5 ∧
    Sensor.publishMQTTJSON (Sensor.update sV0 rVall).1 = some (sVpost, some pubV) ∧
    pubV.rain_delta = 0 ∧ sVpost.last_rain = 5 := by
  have h2 : sV0.last_rain < 0 := by norm_num [sV0, Sensor.init]
  have hup : (Sensor.update sV0 rVall).1 = { Sensor.init "Acurite-Atlas" 3 "" with
      measure_time := "t", seen37 := true, wind_speed := [2], strikes := [1],
      strike_dist := [4], last_rain := 5, rain := 5 } := rfl
  have h4 : Sensor.publishMQTTJSON (Sensor.update sV0 rVall).1 = some (sVpost, some pubV) := by
    rw [hup]
    norm_num [Sensor.publishMQTTJSON, sVpost, pubV, Sensor.init]
  have h5 := C6_rain_baseline.2.2.2 sV0 rVall 5 sVpost pubV rfl rfl h2 h4
  exact ⟨rfl, h2, rfl, h4, h5.1, h5.2⟩

/-- Claim C7: for every calibration and raw words the pressure
pipeline of `BME280.reading` is division-by-zero free: it always
produces a value, and when the calibration-dependent divisor `rp1` is
zero the pressure is reported as `0` without dividing. -/
theorem C7_pressure_zero_divisor :
    ∀ (c : BMECal) (rawp rawt : ℤ),
      (c.bmePres rawp rawt).isSome = true ∧
      (c.pDivisor rawt = 0 → c.bmePres rawp rawt = some 0) := by
  intro c rawp rawt
  constructor
  · simp only [BMECal.bmePres]
    split
    · rfl
    · rename_i hne
      obtain ⟨z, hz⟩ := Option.isSome_iff_exists.mp (pyIntTrueDiv_isSome hne)
      rw [hz]
      rfl
  · intro h0
    simp only [BMECal.pDivisor] at h0
    simp only [BMECal.bmePres]
    rw [if_pos h0]

/-- Claim C7 (witness): the all-zero calibration produces divisor `0`
and the pipeline reports pressure `0`. -/
theorem C7_witness : calZ.pDivisor 0 = 0 ∧ calZ.bmePres 0 0 = some 0 :=
  ⟨by decide, (C7_pressure_zero_divisor calZ 0 0).2 (by decide)⟩

/-- Claim C8: `Sensor.update` stores a Fahrenheit temperature as
`(F - 32) * 5 / 9` Celsius, appends a km/h wind speed divided by
`1.609344`, and processes the Celsius field before the Fahrenheit
field, so when both are present the Fahrenheit-derived value is the
one stored. -/
theorem C8_unit_conversion :
    (∀ (s : Sensor) (d : Reading) (f : ℚ), Sensor.idMismatch s d = false →
        d.temperature_F = some f →
        (Sensor.update s d).1.temp = (f - 32) * (5 / 9)) ∧
    (∀ (s : Sensor) (d : Reading) (v : ℚ), Sensor.idMismatch s d = false →
        d.wind_avg_km_h = some v →
        (Sensor.update s d).1.wind_speed =
          s.wind_speed ++ d.wind_avg_mi_h.toList ++ [v / 1.609344]) ∧
    (∀ (s : Sensor) (d : Reading) (c f : ℚ), Sensor.idMismatch s d = false →
        d.temperature_C = some c → d.temperature_F = some f →
        (Sensor.update s d).1.temp = (f - 32) * (5 / 9)) := by
  refine ⟨?_, ?_, ?_⟩
  · intro s d f hidm hF
    rw [update_fst s d hidm, applyFields_temp, hF]
    rfl
  · intro s d v hidm hKm
    rw [update_fst s d hidm, applyFields_wind_speed, hKm]
    rfl
  · intro s d c f hidm hC hF
    rw [update_fst s d hidm, applyFields_temp, hF]
    rfl

/-- Claim C8 (witness): `temperature_F = 32` stores temperature `0`;
`wind_avg_km_h = 1.609344` appends wind sample `1`; with both a
Celsius (`100`) and a Fahrenheit (`32`) field the stored value is the
Fahrenheit-derived `0`. -/
theorem C8_witness :
    (Sensor.update sTw dF32).1.temp = 0 ∧
    (Sensor.update sTw dKm).1.wind_speed = [1] ∧
    (Sensor.update sTw dCF).1.temp = 0 := by
  refine ⟨?_, ?_, ?_⟩
  · rw [C8_unit_conversion.1 sTw dF32 32 rfl rfl]
    norm_num
  · rw [C8_unit_conversion.2.1 sTw dKm 1.609344 rfl rfl]
    norm_num [sTw, Sensor.init, dKm]
  · rw [C8_unit_conversion.2.2 sTw dCF 100 32 rfl rfl rfl]
    norm_num

/-- Claim C9: immediately after `publishMQTTJSON` emits a completed
reading for a multi-part (`Acurite-Atlas`) sensor, the wind-speed,
strike-count and strike-distance accumulators are empty and all three
completion-set entries are false, so a following subtype-37-only
reading does not complete the sensor again. -/
theorem C9_reset_after_emission :
    ∀ (s s' : Sensor) (pub : Option Sensor.AtlasPub),
      s.model = "Acurite-Atlas" →
      Sensor.publishMQTTJSON s = some (s', pub) →
      s'.wind_speed = [] ∧ s'.strikes = [] ∧ s'.strike_dist = [] ∧
      s'.seen37 = false ∧ s'.seen38 = false ∧ s'.seen39 = false ∧
      (∀ d : Reading, d.message_type = some 37 → (Sensor.update s' d).2 = false) := by
  intro s s' pub hm h
  obtain ⟨hs', -⟩ := publish_atlas_eq hm h
  have hm' : s'.model = "Acurite-Atlas" := by rw [hs']; exact hm
  refine ⟨by rw [hs'], by rw [hs'], by rw [hs'], by rw [hs'], by rw [hs'], by rw [hs'], ?_⟩
  intro d hd
  cases hidm : Sensor.idMismatch s' d with
  | true => simp [Sensor.update, hidm]
  | false =>
    rw [update_snd_atlas s' d hidm hm']
    have hb : ((some (37 : ℤ) == some (38 : ℤ)) : Bool) = false := by decide
    have h38 : (Sensor.applyFields s' d).seen38 = false := by
      rw [applyFields_seen38, hd, hs']
      simp [hb]
    simp [h38]

/-- Claim C9 (witness): emitting the completed Atlas sensor `sAtl`
leaves empty accumulators and a cleared completion set, and a
subtype-37-only reading then reports incomplete. -/
theorem C9_witness :
    sAtl.model = "Acurite-Atlas" ∧
    Sensor.publishMQTTJSON sAtl = some (sAtlPost, some pubAtl) ∧
    sAtlPost.wind_speed = [] ∧ sAtlPost.seen37 = false ∧
    (Sensor.update sAtlPost r37only).2 = false := by
  have hp : Sensor.publishMQTTJSON sAtl = some (sAtlPost, some pubAtl) := by
    norm_num [Sensor.publishMQTTJSON, sAtl, sAtlPost, pubAtl, Sensor.init]
  have h9 := C9_reset_after_emission sAtl sAtlPost (some pubAtl) rfl hp
  exact ⟨rfl, hp, h9.1, h9.2.2.2.1, h9.2.2.2.2.2.2 r37only rfl⟩

/-- Claim C10: for an Atlas sensor, `publishMQTTJSON` computes the
published wind-speed, strike and strike-distance values as
`sum / length` of the accumulators and therefore fails with a
division-by-zero (`none`) exactly when one of them is empty; in
particular the three marker-only subtype readings complete the sensor
through `SensorList.process`, and emitting that completed reading
fails instead of publishing. -/
theorem C10_empty_accumulator_emission :
    (∀ s : Sensor, s.model = "Acurite-Atlas" →
        (Sensor.publishMQTTJSON s = none ↔
          (s.wind_speed = [] ∨ s.strikes = [] ∨ s.strike_dist = []))) ∧
    SensorList.process slM2 rM39 = .ok (slM3, [sM3]) ∧
    Sensor.publishMQTTJSON sM3 = none :=
  ⟨fun _ hm => publish_none_iff hm, rfl, rfl⟩

/-- Claim C10 (witness): the emptiness characterization applied to the
marker-only completed sensor `sM3`. -/
theorem C10_witness :
    sM3.model = "Acurite-Atlas" ∧
    (Sensor.publishMQTTJSON sM3 = none ↔
      (sM3.wind_speed = [] ∨ sM3.strikes = [] ∨ sM3.strike_dist = [])) :=
  ⟨rfl, C10_empty_accumulator_emission.1 sM3 rfl⟩

end W2Mqtt
